import Mathlib

/-!
Verification of the retrieval core of the odqa baseline repository.

The development shallowly embeds the parts of `src/prepare.py` and
`src/retrieval/dense/dpr.py` that the claims refer to, together with models
of the sparse scorers and the ranking step, which live in repository files
outside `src/` and are therefore modelled from the specification text.
Machine floats are modelled by rationals; Python lists by Lean lists.
-/

/- ===== Sparse scoring (spec-modelled; `retrieval/sparse` is not under src/) ===== -/

/-- Modelled from the spec: term frequency `tf(t,d)` of spec section 4.2, the number of
occurrences of term `t` in the tokenized document `d` (the sparse scorer sources are
not under src/). -/
def tf (t : String) (d : List String) : ℕ := d.count t

/-- Modelled from the spec: document frequency `df(t)` of spec section 4.2, the number of
corpus documents containing term `t`. -/
def df (t : String) (corpus : List (List String)) : ℕ :=
  corpus.countP (fun d => decide (t ∈ d))

/-- Modelled from the spec: document length `doc_len(d)` of spec section 4.2. -/
def docLen (d : List String) : ℕ := d.length

/-- Modelled from the spec: `avg_doc_length` of spec sections 3 and 4.2. -/
def avgDocLen (corpus : List (List String)) : ℚ :=
  ((corpus.map List.length).sum : ℚ) / (corpus.length : ℚ)

/-- Modelled from the spec: TF-IDF idf, `idf(t) = log(N / df(t))` with `df(t)` clamped to
a minimum of 1 (spec section 4.2).  The logarithm is an abstract parameter since the
embedding works over rationals. -/
def tfidfIdf (logFn : ℚ → ℚ) (corpus : List (List String)) (t : String) : ℚ :=
  logFn ((corpus.length : ℚ) / ((max (df t corpus) 1 : ℕ) : ℚ))

/-- Modelled from the spec: TF-IDF score `score(q,d) = Σ_t tf(t,d) * idf(t)`
(spec section 4.2). -/
def tfidfScore (logFn : ℚ → ℚ) (corpus : List (List String)) (q d : List String) : ℚ :=
  (q.map (fun t => (tf t d : ℚ) * tfidfIdf logFn corpus t)).sum

/-- Modelled from the spec: the classically "+1"-smoothed BM25 idf
(spec sections 4.2 and the glossary), non-negative for every df. -/
def bm25Idf (logFn : ℚ → ℚ) (corpus : List (List String)) (t : String) : ℚ :=
  logFn ((corpus.length : ℚ) / ((max (df t corpus) 1 : ℕ) : ℚ) + 1)

/-- Modelled from the spec: the BM25 term-frequency factor
`tf(t,d)*(k1+1) / (tf(t,d) + k1*(1-b+b*doc_len(d)/avg_doc_length))` (spec section 4.2). -/
def bm25TermFactor (k1 b : ℚ) (corpus : List (List String)) (t : String) (d : List String) : ℚ :=
  ((tf t d : ℚ) * (k1 + 1)) /
    ((tf t d : ℚ) + k1 * (1 - b + b * (docLen d : ℚ) / avgDocLen corpus))

/-- Modelled from the spec: BM25 score, summed over query terms present in the index;
terms absent from the vocabulary contribute zero, not an error (spec section 4.2). -/
def bm25Score (logFn : ℚ → ℚ) (k1 b : ℚ) (corpus : List (List String)) (q d : List String) : ℚ :=
  (q.map (fun t =>
    if df t corpus = 0 then 0
    else bm25Idf logFn corpus t * bm25TermFactor k1 b corpus t d)).sum

/-- Modelled from the spec: ATIRE-BM25 idf `log(N/df(t))` without "+1" smoothing, with any
negative value clamped to zero rather than propagated (spec section 4.2). -/
def atireIdf (logFn : ℚ → ℚ) (corpus : List (List String)) (t : String) : ℚ :=
  max 0 (logFn ((corpus.length : ℚ) / (df t corpus : ℚ)))

/-- Modelled from the spec: ATIRE-BM25 score, the clamped ATIRE idf times the BM25
term-frequency factor, summed over query terms present in the index. -/
def atireBm25Score (logFn : ℚ → ℚ) (k1 b : ℚ) (corpus : List (List String))
    (q d : List String) : ℚ :=
  (q.map (fun t =>
    if df t corpus = 0 then 0
    else atireIdf logFn corpus t * bm25TermFactor k1 b corpus t d)).sum

/-- A concrete "logarithm" satisfying `1 ≤ x → 0 ≤ linLog x`, used to instantiate the
abstract log parameter on concrete inputs. -/
def linLog (x : ℚ) : ℚ := x - 1

/- ===== Dense embedding construction: dpr.py, BertEncoder and _exec_embedding ===== -/

/-- Dot product of two rational vectors. -/
def dotQ (xs ys : List ℚ) : ℚ := (List.zipWith (· * ·) xs ys).sum

/-- An `nn.Linear` layer: a weight matrix (one row per output feature) and a bias
vector.  `BertEncoder.__init__` (dpr.py line 40) builds `nn.Linear(config.hidden_size, 512)`,
i.e. a layer with 512 weight rows and 512 bias entries. -/
structure LinearLayer where
  weight : List (List ℚ)
  bias : List ℚ

/-- Forward pass of `nn.Linear` on one input vector: one output entry per
(weight row, bias entry) pair. -/
def LinearLayer.forward (layer : LinearLayer) (x : List ℚ) : List ℚ :=
  (layer.weight.zip layer.bias).map (fun wb => dotQ wb.1 x + wb.2)

/-- `BertEncoder.forward` (dpr.py lines 43-47): the BERT pooled output (opaque here,
a parameter) is passed through the `bert_proj` projection layer. -/
def bertEncoderForward (bertPooled : String → List ℚ) (bert_proj : LinearLayer)
    (passage : String) : List ℚ :=
  bert_proj.forward (bertPooled passage)

/-- The Python list `p_embedding` built by the loop of `DprRetrieval._exec_embedding`
(dpr.py lines 216-221): one appended `p_emb` per element of `self.contexts`, each
`p_emb` of shape (1, 512), i.e. a singleton list holding one projected vector. -/
def exec_embedding_list (bertPooled : String → List ℚ) (bert_proj : LinearLayer)
    (contexts : List String) : List (List (List ℚ)) :=
  contexts.map (fun passage => [bertEncoderForward bertPooled bert_proj passage])

/-- Shape of `np.array` applied to a Python list of `n` arrays, each of shape `s`:
for the empty list numpy produces shape (0,), otherwise it stacks to `n :: s`. -/
def npArrayStackShape (n : ℕ) (s : List ℕ) : List ℕ := if n = 0 then [0] else n :: s

/-- Shape of `ndarray.squeeze()`: every axis of size 1 is removed. -/
def npSqueeze (shape : List ℕ) : List ℕ := shape.filter (fun d => decide (d ≠ 1))

/-- Shape of the matrix returned by `DprRetrieval._exec_embedding` (dpr.py line 223):
`np.array(p_embedding).squeeze()` applied to `numContexts` arrays of shape (1, 512). -/
def exec_embedding_shape (numContexts : ℕ) : List ℕ :=
  npSqueeze (npArrayStackShape numContexts [1, 512])

/-- Python `len()` of an ndarray: the first axis (0 for the empty shape). -/
def matrixLen (shape : List ℕ) : ℕ := shape.headD 0

/-- Well-formedness of the pre-squeeze embedding list: each appended entry has
shape (1, 512). -/
def embeddingRowsWellFormed (rows : List (List (List ℚ))) : Prop :=
  ∀ pemb ∈ rows, pemb.length = 1 ∧ ∀ v ∈ pemb, v.length = 512

/- ===== Training performed inside _exec_embedding: dpr.py, DprRetrieval.train ===== -/

/-- `global_step` at the end of `DprRetrieval.train` (dpr.py lines 109-151): the
epoch loop runs the batch loop, and `global_step += 1` once per batch per epoch. -/
def dprTrainGlobalStep (numEpochs numBatches : ℕ) : ℕ :=
  (List.range numEpochs).foldl
    (fun gs _epoch => (List.range numBatches).foldl (fun g _step => g + 1) gs) 0

/-- `num_train_epochs=10` in the `TrainingArguments` that `_exec_embedding` builds
(dpr.py line 210). -/
def execEmbeddingNumEpochs : ℕ := 10

/-- Number of optimizer update steps that `DprRetrieval._exec_embedding` performs on the
encoders (dpr.py line 214 calls `self.train`); `optimizer.step()` runs once per
`global_step` increment. -/
def execEmbeddingOptimizerSteps (numBatches : ℕ) : ℕ :=
  dprTrainGlobalStep execEmbeddingNumEpochs numBatches

/- ===== Retriever registry and mixin dispatch: prepare.py ===== -/

/-- The retriever classes registered in `prepare.py`.  Their implementations live in
modules outside src/; here they are opaque tags. -/
inductive RetrieverClass
  | bm25Retrieval
  | atireBm25Retrieval
  | tfidfRetrieval
  | dprBert
  | colBert
  | bm25DprBert
  | tfidfDprBert
  | atireBm25DprBert
  | logisticBm25DprBert
  | logisticAtireBm25DprBert
deriving DecidableEq

/-- The `RETRIEVER` mapping of prepare.py lines 13-27, as an association list in
source order. -/
def RETRIEVER : List (String × RetrieverClass) :=
  [("BM25", .bm25Retrieval),
   ("ATIREBM25", .atireBm25Retrieval),
   ("TFIDF", .tfidfRetrieval),
   ("DPRBERT", .dprBert),
   ("COLBERT", .colBert),
   ("BM25_DPRBERT", .bm25DprBert),
   ("TFIDF_DPRBERT", .tfidfDprBert),
   ("ATIREBM25_DPRBERT", .atireBm25DprBert),
   ("LOG_BM25_DPRBERT", .logisticBm25DprBert),
   ("LOG_ATIREBM25_DPRBERT", .logisticAtireBm25DprBert)]

/-- The ten recognized retriever scheme names, in registry order. -/
def retrieverNames : List String :=
  ["BM25", "ATIREBM25", "TFIDF", "DPRBERT", "COLBERT", "BM25_DPRBERT",
   "TFIDF_DPRBERT", "ATIREBM25_DPRBERT", "LOG_BM25_DPRBERT", "LOG_ATIREBM25_DPRBERT"]

/-- The two training-strategy mixin classes imported by prepare.py line 10. -/
inductive TrainMixin
  | baseTrainMixin
  | bm25TrainMixin
deriving DecidableEq

/-- The class actually instantiated by `get_retriever`: either the registered class
unchanged, or a class synthesized by `retriever_mixin_factory` with bases
`(mixin, base)`.  Neither component is mutated: the original class tags are stored
unchanged. -/
inductive BuiltClass
  | registered (base : RetrieverClass)
  | synthesized (name : String) (mixin : TrainMixin) (base : RetrieverClass)
deriving DecidableEq

/-- `retriever_mixin_factory` (prepare.py lines 35-37): `type(name, (mixin, base), {})`,
a new class whose bases are the mixin followed by the base. -/
def retriever_mixin_factory (name : String) (base : RetrieverClass) (mixin : TrainMixin) :
    BuiltClass :=
  .synthesized name mixin base

/-- The two `args` fields read by `get_retriever`:
`args.model.retriever_name` and `args.retriever.dense_train_dataset`. -/
structure Args where
  retrieverName : String
  denseTrainDataset : String

/-- Python `dict` lookup failure: `RETRIEVER[name]` raises `KeyError(name)` for a
missing key. -/
inductive GetRetrieverError
  | keyError (key : String)
deriving DecidableEq

/-- Python `str.startswith`, as a computable character-prefix test. -/
def pyStartsWith (s pre : String) : Bool := pre.data.isPrefixOf s.data

/-- The class-selection logic of `get_retriever` (prepare.py lines 58-64): the dict
lookup result, then the two mixin branches.  The first branch has no retriever-name
guard; the second requires the name to differ from "COLBERT". -/
def select_retriever_class (retrieverName denseTrainDataset : String)
    (retriever_class : RetrieverClass) : BuiltClass :=
  if pyStartsWith denseTrainDataset "bm25" then
    retriever_mixin_factory "bm25_mixin_class" retriever_class .bm25TrainMixin
  else if denseTrainDataset = "train_dataset" ∧ retrieverName ≠ "COLBERT" then
    retriever_mixin_factory "base_mixin_class" retriever_class .baseTrainMixin
  else
    .registered retriever_class

/-- `get_retriever` (prepare.py lines 40-69), up to the class to be instantiated:
the mapping lookup raises `KeyError` on an unrecognized name before any retriever is
constructed; otherwise the mixin selection is applied to the registered class. -/
def get_retriever (args : Args) : Except GetRetrieverError BuiltClass :=
  match RETRIEVER.lookup args.retrieverName with
  | none => .error (.keyError args.retrieverName)
  | some retriever_class =>
      .ok (select_retriever_class args.retrieverName args.denseTrainDataset retriever_class)

/-- A class appearing in a method-resolution order: a mixin or a registered base. -/
inductive ClassRef
  | mixinRef (m : TrainMixin)
  | baseRef (c : RetrieverClass)
deriving DecidableEq

/-- Method-resolution order of a built class (the class itself defines no methods):
for `type(name, (mixin, base), {})` the mixin precedes the base. -/
def BuiltClass.mro : BuiltClass → List ClassRef
  | .registered base => [.baseRef base]
  | .synthesized _ mixin base => [.mixinRef mixin, .baseRef base]

/-- Python attribute resolution along the MRO: the first class defining the method
provides it. -/
def resolveMethod (methods : ClassRef → List String) (cls : BuiltClass)
    (meth : String) : Option ClassRef :=
  cls.mro.find? (fun ref => decide (meth ∈ methods ref))

/- ===== Retrieval ranking (spec-modelled; retrieval/base and hybrid are not under src/) ===== -/

/-- A (doc id, final score) pair produced for one query. -/
structure ScoredDoc where
  docId : ℕ
  score : ℚ
deriving DecidableEq

/-- Modelled from the spec: the ranking order of `retrieve` (the retrieval base
class is not under src/) — higher final score first, ties in final score broken by
ascending document id (spec sections 4.4 and 8). -/
def rankLe (a b : ScoredDoc) : Prop :=
  b.score < a.score ∨ (a.score = b.score ∧ a.docId ≤ b.docId)

instance : DecidableRel rankLe := fun a b =>
  inferInstanceAs (Decidable (b.score < a.score ∨ (a.score = b.score ∧ a.docId ≤ b.docId)))

instance : IsTotal ScoredDoc rankLe where
  total a b := by
    rcases lt_trichotomy a.score b.score with h | h | h
    · exact Or.inr (Or.inl h)
    · rcases Nat.le_total a.docId b.docId with h' | h'
      · exact Or.inl (Or.inr ⟨h, h'⟩)
      · exact Or.inr (Or.inr ⟨h.symm, h'⟩)
    · exact Or.inl (Or.inl h)

instance : IsTrans ScoredDoc rankLe where
  trans a b c hab hbc := by
    rcases hab with hab | ⟨hab, hab'⟩ <;> rcases hbc with hbc | ⟨hbc, hbc'⟩
    · exact Or.inl (hbc.trans hab)
    · exact Or.inl (hbc ▸ hab)
    · exact Or.inl (hab ▸ hbc)
    · exact Or.inr ⟨hab.trans hbc, hab'.trans hbc'⟩

/-- Modelled from the spec: the ordered result sequence of `retrieve`/`fuse`
(spec sections 4.4 and 4.6; the implementing files are not under src/): the scored
candidates sorted by descending score with ascending-id tie-break, truncated to
`top_k`. -/
def retrieveRanked (cands : List ScoredDoc) (topK : ℕ) : List ScoredDoc :=
  (List.insertionSort rankLe cands).take topK

/-- Equal-score entries appear in strictly ascending document-id order. -/
def tieBreakOrdered (l : List ScoredDoc) : Prop :=
  ∀ i j : Fin l.length, i < j → (l.get i).score = (l.get j).score →
    (l.get i).docId < (l.get j).docId

/- ===== Dense similarity: dpr.py line 134 ===== -/

/-- `sim_scores = torch.matmul(q_outputs, torch.transpose(p_outputs, 0, 1))`
(dpr.py line 134): the batch similarity matrix is the query representations times the
transposed passage representations, with no normalization of either side. -/
def simScores {nq dim npass : ℕ} (qOutputs : Matrix (Fin nq) (Fin dim) ℚ)
    (pOutputs : Matrix (Fin npass) (Fin dim) ℚ) : Matrix (Fin nq) (Fin npass) ℚ :=
  qOutputs * pOutputs.transpose

/- ===== Encoder constructor semantics: dpr.py, AutoEncoder and KoelectraEncoder ===== -/

/-- A Python exception raised while running an `__init__` body. -/
inductive PyExc
  | attributeError (msg : String)
deriving DecidableEq

/-- The statements of the encoder `__init__` bodies that matter for attribute
semantics: calling `super().__init__()`, assigning an `nn.Module`-valued attribute,
and calling a method on `self`. -/
inductive InitStmt
  | superInit
  | assignModule (attrName : String)
  | callSelfMethod (methName : String)

/-- Executes an `__init__` body under PyTorch attribute semantics: assigning a
module-valued attribute before `nn.Module.__init__` has run raises
`AttributeError` (torch's `__setattr__` guard), and calling an undefined method on
`self` raises `AttributeError` naming the method. -/
def runInitStmts (selfMethods : List String) : Bool → List InitStmt → Except PyExc Unit
  | _, [] => .ok ()
  | _, .superInit :: rest => runInitStmts selfMethods true rest
  | moduleInitialized, .assignModule _ :: rest =>
      if moduleInitialized then runInitStmts selfMethods moduleInitialized rest
      else .error (.attributeError "cannot assign module before Module.__init__() call")
  | moduleInitialized, .callSelfMethod meth :: rest =>
      if meth ∈ selfMethods then runInitStmts selfMethods moduleInitialized rest
      else .error (.attributeError meth)

/-- Methods `torch.nn.Module` provides to its subclasses; crucially it defines no
`init_weights` (that method belongs to transformers' `PreTrainedModel`). -/
def nnModuleMethods : List String :=
  ["forward", "train", "eval", "parameters", "zero_grad", "to", "cuda"]

/-- Methods visible on a `BertPreTrainedModel` subclass such as `BertEncoder`:
transformers adds `init_weights` and `from_pretrained` on top of `nn.Module`. -/
def bertPreTrainedModelMethods : List String :=
  ["init_weights", "from_pretrained"] ++ nnModuleMethods

/-- Methods visible on `AutoEncoder` (dpr.py lines 50-61): its own `forward` plus the
`nn.Module` API — it subclasses `nn.Module` only. -/
def autoEncoderSelfMethods : List String := "forward" :: nnModuleMethods

/-- Methods visible on `KoelectraEncoder` (dpr.py lines 64-74): its own `forward`
plus the `nn.Module` API. -/
def koelectraEncoderSelfMethods : List String := "forward" :: nnModuleMethods

/-- Methods visible on `BertEncoder` (dpr.py lines 35-47). -/
def bertEncoderSelfMethods : List String := "forward" :: bertPreTrainedModelMethods

/-- Body of `AutoEncoder.__init__` (dpr.py lines 51-55): `super().__init__()`, the
`backbone` and `backbone_proj` module assignments, then `self.init_weights()`. -/
def autoEncoderInitBody : List InitStmt :=
  [.superInit, .assignModule "backbone", .assignModule "backbone_proj",
   .callSelfMethod "init_weights"]

/-- Body of `KoelectraEncoder.__init__` (dpr.py lines 65-68): the module assignments
and `self.init_weights()`, with no `super().__init__()` call. -/
def koelectraEncoderInitBody : List InitStmt :=
  [.assignModule "backbone", .assignModule "backbone_proj",
   .callSelfMethod "init_weights"]

/-- Body of `BertEncoder.__init__` (dpr.py lines 36-41). -/
def bertEncoderInitBody : List InitStmt :=
  [.superInit, .assignModule "bert", .assignModule "bert_proj",
   .callSelfMethod "init_weights"]

/-- Constructing `AutoEncoder(model_name, config)` (the collaborator calls such as
`AutoModel.from_pretrained` are treated as opaque successes). -/
def autoEncoderConstruct (_modelName : String) : Except PyExc Unit :=
  runInitStmts autoEncoderSelfMethods false autoEncoderInitBody

/-- Constructing `KoelectraEncoder(model_name, config)`. -/
def koelectraEncoderConstruct (_modelName : String) : Except PyExc Unit :=
  runInitStmts koelectraEncoderSelfMethods false koelectraEncoderInitBody

/-- Constructing `BertEncoder(config)`. -/
def bertEncoderConstruct : Except PyExc Unit :=
  runInitStmts bertEncoderSelfMethods false bertEncoderInitBody

/-- `DprKobertRetrieval._load_model` (dpr.py lines 233-237): constructs an
`AutoEncoder` for the passage encoder and another for the query encoder. -/
def dprKobertLoadModel (backbone : String) : Except PyExc Unit := do
  let _p ← autoEncoderConstruct backbone
  let _q ← autoEncoderConstruct backbone
  pure ()

/-- `DprKoelectraRetrieval._load_model` (dpr.py lines 269-273): constructs two
`KoelectraEncoder`s. -/
def dprKoelectraLoadModel (backbone : String) : Except PyExc Unit := do
  let _p ← koelectraEncoderConstruct backbone
  let _q ← koelectraEncoderConstruct backbone
  pure ()

/- ===== In-batch-negative targets: dpr.py lines 123-141 ===== -/

/-- `targets = torch.arange(0, per_device_train_batch_size)` (dpr.py line 135),
independent of the actual batch contents. -/
def nllTargets (batchSizeArg : ℕ) : List ℕ := List.range batchSizeArg

/-- Well-definedness of `F.nll_loss(input, target)` for an input with `inputBatch`
rows and `numClasses` classes: the target vector must have one entry per input row
and every target must index a valid class. -/
def nllLossWellDefined (inputBatch numClasses : ℕ) (targets : List ℕ) : Prop :=
  targets.length = inputBatch ∧ ∀ t ∈ targets, t < numClasses

/-- Well-definedness of one training step of `DprRetrieval.train` on a batch of `m`
examples: `sim_scores` is an `m × m` matrix (dpr.py line 134) and the target vector is
`arange(0, batchSizeArg)` (line 135). -/
def trainStepWellDefined (batchSizeArg m : ℕ) : Prop :=
  nllLossWellDefined m m (nllTargets batchSizeArg)

/-- Batch sizes produced by a `DataLoader` over `n` examples with batch size `bs`
(dpr.py lines 98-100, default `drop_last=False`): `n / bs` full batches followed by a
final partial batch of `n % bs` examples when `bs` does not divide `n`. -/
def dataLoaderBatchSizes (n bs : ℕ) : List ℕ :=
  List.replicate (n / bs) bs ++ (if n % bs = 0 then [] else [n % bs])

/-- Every batch of the epoch satisfies the training-step precondition. -/
def allBatchesWellDefined (n bs : ℕ) : Prop :=
  ∀ m ∈ dataLoaderBatchSizes n bs, trainStepWellDefined bs m

/- ===== epoch_time: dpr.py lines 28-32 ===== -/

/-- Python `int()` on a float: truncation toward zero. -/
def pyInt (x : ℚ) : ℤ := if 0 ≤ x then ⌊x⌋ else -⌊-x⌋

/-- `epoch_time` (dpr.py lines 28-32): elapsed minutes and leftover seconds of the
interval from `startTime` to `endTime`. -/
def epoch_time (startTime endTime : ℚ) : ℤ × ℤ :=
  let elapsed_time := endTime - startTime
  let elapsed_mins := pyInt (elapsed_time / 60)
  let elapsed_secs := pyInt (elapsed_time - elapsed_mins * 60)
  (elapsed_mins, elapsed_secs)

/- ===== Helper lemmas ===== -/

/-- Association-list lookup succeeds exactly on the stored keys. -/
theorem lookup_isSome_iff_mem_keys {α β : Type} [BEq α] [LawfulBEq α]
    (l : List (α × β)) (a : α) : (l.lookup a).isSome ↔ a ∈ l.map Prod.fst := by
  induction l with
  | nil => simp [List.lookup]
  | cons hd tl ih =>
    obtain ⟨k, v⟩ := hd
    by_cases h : a = k
    · subst h; simp [List.lookup]
    · have hbeq : (a == k) = false := beq_eq_false_iff_ne.mpr h
      simp only [List.lookup, hbeq]
      simp [h, ih]

/-- A fold that adds one per element counts the list length. -/
theorem foldl_add_one (l : List ℕ) (g : ℕ) :
    l.foldl (fun g _ => g + 1) g = g + l.length := by
  induction l generalizing g with
  | nil => simp
  | cons hd tl ih => simp [List.foldl_cons, ih, Nat.add_assoc, Nat.add_comm 1 tl.length]

/-- A fold that adds a constant per element multiplies it by the list length. -/
theorem foldl_add_const (c : ℕ) (l : List ℕ) (g : ℕ) :
    l.foldl (fun g _ => g + c) g = g + l.length * c := by
  induction l generalizing g with
  | nil => simp
  | cons hd tl ih => simp [List.foldl_cons, ih, Nat.succ_mul, Nat.add_assoc,
      Nat.add_comm c (tl.length * c)]

/- ===== C10 ===== -/

/-- C10: for end_time ≥ start_time, `epoch_time` returns the floor of elapsed/60 as
minutes (which is the integer truncation since the elapsed time is non-negative), a
seconds component between 0 and 59, and together they account for the whole-second
part of the elapsed time. -/
theorem epoch_time_spec (s e : ℚ) (h : s ≤ e) :
    (epoch_time s e).1 = ⌊(e - s) / 60⌋ ∧
    0 ≤ (epoch_time s e).2 ∧ (epoch_time s e).2 ≤ 59 ∧
    60 * (epoch_time s e).1 + (epoch_time s e).2 = ⌊e - s⌋ := by
  have hq : 0 ≤ e - s := by linarith
  have h60 : (0 : ℚ) ≤ (e - s) / 60 := by positivity
  have hm : pyInt ((e - s) / 60) = ⌊(e - s) / 60⌋ := by simp [pyInt, h60]
  have hfloor_le : (⌊(e - s) / 60⌋ : ℚ) ≤ (e - s) / 60 := Int.floor_le _
  have hlt : (e - s) / 60 < (⌊(e - s) / 60⌋ : ℚ) + 1 := Int.lt_floor_add_one _
  have hqdiv : (e - s) = 60 * ((e - s) / 60) := by ring
  have hmul_le : (⌊(e - s) / 60⌋ : ℚ) * 60 ≤ e - s := by linarith
  have hmul_lt : e - s < (⌊(e - s) / 60⌋ : ℚ) * 60 + 60 := by linarith
  have hrem : 0 ≤ e - s - (⌊(e - s) / 60⌋ : ℚ) * 60 := by linarith
  have hsecs : pyInt (e - s - (⌊(e - s) / 60⌋ : ℚ) * 60) =
      ⌊e - s⌋ - ⌊(e - s) / 60⌋ * 60 := by
    rw [pyInt, if_pos hrem]
    rw [show ((⌊(e - s) / 60⌋ : ℚ) * 60) = ((⌊(e - s) / 60⌋ * 60 : ℤ) : ℚ) by push_cast; ring,
      Int.floor_sub_int]
  have hpair : epoch_time s e = (⌊(e - s) / 60⌋, ⌊e - s⌋ - ⌊(e - s) / 60⌋ * 60) := by
    simp only [epoch_time, hm, hsecs]
  rw [hpair]
  refine ⟨rfl, ?_, ?_, by ring⟩
  · have h1 : ⌊(e - s) / 60⌋ * 60 ≤ ⌊e - s⌋ := by
      rw [Int.le_floor]; push_cast; linarith
    omega
  · have h2 : ⌊e - s⌋ < ⌊(e - s) / 60⌋ * 60 + 60 := by
      rw [show (⌊(e - s) / 60⌋ * 60 + 60 : ℤ) = (⌊(e - s) / 60⌋ + 1) * 60 by ring]
      rw [Int.floor_lt]; push_cast; linarith
    omega

/-- C10 witness: `epoch_time` at 0 and 125 seconds. -/
theorem epoch_time_spec_witness :
    (epoch_time 0 125).1 = ⌊((125 : ℚ) - 0) / 60⌋ ∧
    0 ≤ (epoch_time 0 125).2 ∧ (epoch_time 0 125).2 ≤ 59 ∧
    60 * (epoch_time 0 125).1 + (epoch_time 0 125).2 = ⌊(125 : ℚ) - 0⌋ :=
  epoch_time_spec 0 125 (by norm_num)

/- ===== C3 ===== -/

/-- C3 counterexample: with a single batch, the embedding-construction path performs
10 optimizer steps, not zero — `_exec_embedding` does train the encoders. -/
theorem exec_embedding_trains_counterexample : execEmbeddingOptimizerSteps 1 ≠ 0 := by
  decide

/-- C3 (amended): the embedding-construction path of `DprRetrieval._exec_embedding`
trains the encoders itself before encoding the corpus: its `TrainingArguments` fix 10
epochs, and it performs one optimizer step per batch per epoch, i.e. 10·B steps for B
batches, rather than consuming precomputed embeddings without training. -/
theorem exec_embedding_optimizer_steps :
    execEmbeddingNumEpochs = 10 ∧
    ∀ numBatches : ℕ, execEmbeddingOptimizerSteps numBatches = 10 * numBatches := by
  refine ⟨rfl, ?_⟩
  intro nb
  have h1 : ∀ (l : List ℕ) (g : ℕ),
      l.foldl (fun gs _ => (List.range nb).foldl (fun g _ => g + 1) gs) g =
        g + l.length * nb := by
    intro l g
    have : ∀ gs : ℕ, (List.range nb).foldl (fun g _ => g + 1) gs = gs + nb := by
      intro gs; rw [foldl_add_one, List.length_range]
    calc l.foldl (fun gs _ => (List.range nb).foldl (fun g _ => g + 1) gs) g
        = l.foldl (fun gs _ => gs + nb) g := by
          congr 1; funext gs x; exact this gs
      _ = g + l.length * nb := foldl_add_const nb l g
  unfold execEmbeddingOptimizerSteps dprTrainGlobalStep execEmbeddingNumEpochs
  rw [h1, List.length_range, Nat.zero_add]

/- ===== C8 ===== -/

/-- C8: constructing `AutoEncoder` raises `AttributeError` for every input because
`self.init_weights()` resolves against `nn.Module`, which does not define it;
constructing `KoelectraEncoder` raises even earlier, at its first module assignment,
because `super().__init__()` was never called; consequently
`DprKobertRetrieval._load_model` and `DprKoelectraRetrieval._load_model` can never
return normally. -/
theorem encoder_constructors_always_raise (modelName : String) :
    autoEncoderConstruct modelName = .error (.attributeError "init_weights") ∧
    koelectraEncoderConstruct modelName =
      .error (.attributeError "cannot assign module before Module.__init__() call") ∧
    dprKobertLoadModel modelName = .error (.attributeError "init_weights") ∧
    dprKoelectraLoadModel modelName =
      .error (.attributeError "cannot assign module before Module.__init__() call") ∧
    (∀ u : Unit, dprKobertLoadModel modelName ≠ .ok u) ∧
    (∀ u : Unit, dprKoelectraLoadModel modelName ≠ .ok u) := by
  refine ⟨rfl, rfl, rfl, rfl, ?_, ?_⟩
  · intro u h
    have hk : dprKobertLoadModel modelName = .error (.attributeError "init_weights") := rfl
    rw [hk] at h
    exact Except.noConfusion h
  · intro u h
    have hk : dprKoelectraLoadModel modelName =
        .error (.attributeError "cannot assign module before Module.__init__() call") := rfl
    rw [hk] at h
    exact Except.noConfusion h

/- ===== C9 ===== -/

/-- C9: the in-batch-negative target vector is `arange(0, batchSizeArg)` regardless of
the batch, so a training step is well-defined exactly when the batch holds exactly
`batchSizeArg` examples, and a whole epoch is well-defined exactly when the batch size
divides the dataset length (a final partial batch violates the precondition). -/
theorem in_batch_negative_precondition :
    (∀ bs m : ℕ, trainStepWellDefined bs m ↔ m = bs) ∧
    (∀ n bs : ℕ, 0 < bs → (allBatchesWellDefined n bs ↔ bs ∣ n)) := by
  constructor
  · intro bs m
    constructor
    · rintro ⟨hlen, _⟩
      simpa [nllTargets] using hlen.symm
    · rintro rfl
      exact ⟨by simp [nllTargets], fun t ht => by simpa [nllTargets] using ht⟩
  · intro n bs hbs
    constructor
    · intro hall
      by_contra hdvd
      have hmod : n % bs ≠ 0 := fun h => hdvd (Nat.dvd_of_mod_eq_zero h)
      have hmem : (n % bs) ∈ dataLoaderBatchSizes n bs := by
        simp [dataLoaderBatchSizes, hmod]
      obtain ⟨hlen, _⟩ := hall _ hmem
      have hlt : n % bs < bs := Nat.mod_lt n hbs
      simp [nllTargets] at hlen
      omega
    · intro hdvd m hm
      have hmod : n % bs = 0 := by
        obtain ⟨c, rfl⟩ := hdvd
        exact Nat.mul_mod_right bs c
      have hm' : m = bs := by
        simp [dataLoaderBatchSizes, hmod] at hm
        exact hm.2
      subst hm'
      refine ⟨by simp [nllTargets], fun t ht => by simpa [nllTargets] using ht⟩

/-- C9 witness: with batch size 2 and a 4-example dataset, every batch satisfies the
training-step precondition, matching divisibility. -/
theorem in_batch_negative_precondition_witness :
    allBatchesWellDefined 4 2 ↔ 2 ∣ 4 :=
  in_batch_negative_precondition.2 4 2 (by decide)

/- ===== C4 ===== -/

/-- C4: the recognized retriever scheme names are exactly the ten keys of the
`RETRIEVER` mapping; `get_retriever` selects the registered class for each of them and
fails with a `KeyError` (before any retriever is constructed) on every other name. -/
theorem retriever_registry_closed :
    RETRIEVER.map Prod.fst = retrieverNames ∧
    (∀ name : String, (RETRIEVER.lookup name).isSome ↔ name ∈ retrieverNames) ∧
    RETRIEVER.lookup "BM25" = some .bm25Retrieval ∧
    RETRIEVER.lookup "ATIREBM25" = some .atireBm25Retrieval ∧
    RETRIEVER.lookup "TFIDF" = some .tfidfRetrieval ∧
    RETRIEVER.lookup "DPRBERT" = some .dprBert ∧
    RETRIEVER.lookup "COLBERT" = some .colBert ∧
    RETRIEVER.lookup "BM25_DPRBERT" = some .bm25DprBert ∧
    RETRIEVER.lookup "TFIDF_DPRBERT" = some .tfidfDprBert ∧
    RETRIEVER.lookup "ATIREBM25_DPRBERT" = some .atireBm25DprBert ∧
    RETRIEVER.lookup "LOG_BM25_DPRBERT" = some .logisticBm25DprBert ∧
    RETRIEVER.lookup "LOG_ATIREBM25_DPRBERT" = some .logisticAtireBm25DprBert ∧
    (∀ (args : Args) (c : RetrieverClass),
      RETRIEVER.lookup args.retrieverName = some c →
      get_retriever args =
        .ok (select_retriever_class args.retrieverName args.denseTrainDataset c)) ∧
    (∀ args : Args, args.retrieverName ∉ retrieverNames →
      get_retriever args = .error (.keyError args.retrieverName)) := by
  refine ⟨rfl, ?_, by decide, by decide, by decide, by decide, by decide, by decide,
    by decide, by decide, by decide, by decide, ?_, ?_⟩
  · intro name
    exact lookup_isSome_iff_mem_keys RETRIEVER name
  · intro args c hc
    unfold get_retriever
    rw [hc]
  · intro args hname
    have hnone : RETRIEVER.lookup args.retrieverName = none := by
      by_contra h
      exact hname ((lookup_isSome_iff_mem_keys RETRIEVER args.retrieverName).mp
        (Option.isSome_iff_ne_none.mpr h))
    unfold get_retriever
    rw [hnone]

/-- C4 witness: an unrecognized name fails with a `KeyError` naming it. -/
theorem retriever_registry_closed_witness :
    get_retriever ⟨"DPR", "train_dataset"⟩ = .error (.keyError "DPR") :=
  retriever_registry_closed.2.2.2.2.2.2.2.2.2.2.2.2.2 ⟨"DPR", "train_dataset"⟩ (by decide)

/- ===== C5 ===== -/

/-- C5: `get_retriever` selects the training-strategy capability exactly as the source
branches do — a `dense_train_dataset` starting with "bm25" yields a synthesized class
with bases (Bm25TrainMixin, base) for every retriever name including "COLBERT";
otherwise "train_dataset" with a non-"COLBERT" name yields bases
(BaseTrainMixin, base); otherwise the registered class is used unchanged — and in a
synthesized class the mixin precedes the base in the MRO, so a method the mixin
defines resolves to the mixin. -/
theorem mixin_selection_spec :
    (∀ (retrieverName denseTrainDataset : String) (c : RetrieverClass),
      pyStartsWith denseTrainDataset "bm25" = true →
      select_retriever_class retrieverName denseTrainDataset c =
        .synthesized "bm25_mixin_class" .bm25TrainMixin c) ∧
    (∀ (retrieverName : String) (c : RetrieverClass),
      retrieverName ≠ "COLBERT" →
      select_retriever_class retrieverName "train_dataset" c =
        .synthesized "base_mixin_class" .baseTrainMixin c) ∧
    (∀ (retrieverName denseTrainDataset : String) (c : RetrieverClass),
      pyStartsWith denseTrainDataset "bm25" = false →
      (denseTrainDataset ≠ "train_dataset" ∨ retrieverName = "COLBERT") →
      select_retriever_class retrieverName denseTrainDataset c = .registered c) ∧
    (∀ (methods : ClassRef → List String) (nm meth : String) (m : TrainMixin)
        (b : RetrieverClass),
      meth ∈ methods (.mixinRef m) →
      resolveMethod methods (.synthesized nm m b) meth = some (.mixinRef m)) := by
  refine ⟨?_, ?_, ?_, ?_⟩
  · intro retrieverName denseTrainDataset c hbm
    unfold select_retriever_class retriever_mixin_factory
    rw [if_pos hbm]
  · intro retrieverName c hname
    unfold select_retriever_class retriever_mixin_factory
    rw [if_neg (by decide), if_pos ⟨rfl, hname⟩]
  · intro retrieverName denseTrainDataset c hbm hother
    unfold select_retriever_class retriever_mixin_factory
    rw [if_neg (by simp [hbm]), if_neg ?_]
    rintro ⟨hds, hcol⟩
    rcases hother with h | h
    · exact h hds
    · exact hcol h
  · intro methods nm meth m b hmeth
    simp [resolveMethod, BuiltClass.mro, List.find?, hmeth]

/-- C5 witness: a "bm25"-prefixed dense training dataset synthesizes the Bm25 mixin
class even for "COLBERT", and a mixin-defined method resolves to the mixin. -/
theorem mixin_selection_spec_witness :
    select_retriever_class "COLBERT" "bm25_document" RetrieverClass.colBert =
      .synthesized "bm25_mixin_class" .bm25TrainMixin RetrieverClass.colBert ∧
    resolveMethod (fun _ => ["train"]) (.synthesized "bm25_mixin_class" .bm25TrainMixin
      RetrieverClass.colBert) "train" = some (.mixinRef .bm25TrainMixin) :=
  ⟨mixin_selection_spec.1 "COLBERT" "bm25_document" RetrieverClass.colBert (by decide),
   mixin_selection_spec.2.2.2 (fun _ => ["train"]) "bm25_mixin_class" "train"
     .bm25TrainMixin RetrieverClass.colBert (by decide)⟩

/- ===== C1 ===== -/

/-- C1 counterexample: for a corpus with exactly one document the trailing
`.squeeze()` of `_exec_embedding` also removes the document axis — the returned
array has shape (512,), whose Python length is 512, not 1. -/
theorem embedding_matrix_row_count_counterexample :
    exec_embedding_shape 1 = [512] ∧ matrixLen (exec_embedding_shape 1) ≠ 1 := by
  constructor
  · rfl
  · decide

/-- C1 (amended): for every corpus whose size differs from 1, the matrix built by
`DprRetrieval._exec_embedding` has one row per document of `self.contexts` and every
row has the fixed dimension 512 fixed by `nn.Linear(hidden_size, 512)`; with exactly
one document, `squeeze` collapses the document axis as well, yielding a flat
512-vector. -/
theorem embedding_matrix_shape (bertPooled : String → List ℚ) (bert_proj : LinearLayer)
    (contexts : List String)
    (hw : bert_proj.weight.length = 512) (hb : bert_proj.bias.length = 512)
    (hn : contexts.length ≠ 1) :
    (exec_embedding_list bertPooled bert_proj contexts).length = contexts.length ∧
    embeddingRowsWellFormed (exec_embedding_list bertPooled bert_proj contexts) ∧
    matrixLen (exec_embedding_shape contexts.length) = contexts.length ∧
    (2 ≤ contexts.length → exec_embedding_shape contexts.length = [contexts.length, 512]) := by
  have hshape : ∀ n : ℕ, n ≠ 1 → exec_embedding_shape n = if n = 0 then [0] else [n, 512] := by
    intro n hn1
    by_cases h0 : n = 0
    · subst h0; rfl
    · simp [exec_embedding_shape, npArrayStackShape, npSqueeze, h0, hn1]
  refine ⟨by simp [exec_embedding_list], ?_, ?_, ?_⟩
  · intro pemb hmem
    simp only [exec_embedding_list, List.mem_map] at hmem
    obtain ⟨passage, _, rfl⟩ := hmem
    refine ⟨rfl, ?_⟩
    intro v hv
    simp only [List.mem_singleton] at hv
    subst hv
    simp [bertEncoderForward, LinearLayer.forward, List.length_zip, hw, hb]
  · rw [hshape contexts.length hn]
    by_cases h0 : contexts.length = 0
    · simp [matrixLen, h0]
    · simp [matrixLen, h0]
  · intro h2
    rw [hshape contexts.length hn]
    have h0 : contexts.length ≠ 0 := by omega
    simp [h0]

/-- A constant stand-in for the opaque BERT pooled output. -/
def constPool (_s : String) : List ℚ := List.replicate 768 0

/-- A projection layer of the shape `nn.Linear(768, 512)` builds: 512 weight rows and
512 bias entries. -/
def projLayer512 : LinearLayer :=
  ⟨List.replicate 512 (List.replicate 768 0), List.replicate 512 0⟩

/-- C1 witness: a two-document corpus yields a 2-row matrix of 512-vectors. -/
theorem embedding_matrix_shape_witness :
    (exec_embedding_list constPool projLayer512 ["a", "b"]).length = 2 ∧
    embeddingRowsWellFormed (exec_embedding_list constPool projLayer512 ["a", "b"]) ∧
    matrixLen (exec_embedding_shape 2) = 2 ∧
    exec_embedding_shape 2 = [2, 512] := by
  obtain ⟨h1, h2, h3, h4⟩ := embedding_matrix_shape constPool projLayer512 ["a", "b"]
    (by simp only [projLayer512, List.length_replicate]) 
    (by simp only [projLayer512, List.length_replicate]) (by decide)
  exact ⟨h1, h2, h3, h4 (by decide)⟩

/- ===== C7 ===== -/

/-- C7: the batch similarity matrix of `DprRetrieval.train` is the plain unnormalized
dot product — entry (i, j) equals the dot product of query representation i with
passage representation j, with no cosine normalization of either side. -/
theorem sim_scores_plain_dot_product {nq dim npass : ℕ}
    (qOutputs : Matrix (Fin nq) (Fin dim) ℚ) (pOutputs : Matrix (Fin npass) (Fin dim) ℚ)
    (i : Fin nq) (j : Fin npass) :
    simScores qOutputs pOutputs i j = Matrix.dotProduct (qOutputs i) (pOutputs j) := by
  simp [simScores, Matrix.mul_apply, Matrix.transpose_apply, Matrix.dotProduct]

/- ===== C2 ===== -/

/-- C2: over any non-empty corpus, TF-IDF and BM25 scores are non-negative for every
(query, document) pair, for any logarithm that is non-negative at arguments ≥ 1 (as
the real log is); the ATIRE-BM25 score is non-negative because its unsmoothed idf is
clamped at zero (its non-negativity needs no property of the logarithm at all). -/
theorem sparse_scores_nonneg (logFn : ℚ → ℚ) (k1 b : ℚ) (corpus : List (List String))
    (q d : List String)
    (hcorpus : corpus ≠ [])
    (hlog : ∀ x : ℚ, 1 ≤ x → 0 ≤ logFn x)
    (hk1 : 0 ≤ k1) (hb0 : 0 ≤ b) (hb1 : b ≤ 1) :
    0 ≤ tfidfScore logFn corpus q d ∧
    0 ≤ bm25Score logFn k1 b corpus q d ∧
    0 ≤ atireBm25Score logFn k1 b corpus q d := by
  have hN : 0 < corpus.length := List.length_pos.mpr hcorpus
  have hdf_le : ∀ t : String, df t corpus ≤ corpus.length :=
    fun t => List.countP_le_length _
  have hmax_pos : ∀ t : String, (0 : ℚ) < ((max (df t corpus) 1 : ℕ) : ℚ) := by
    intro t
    exact_mod_cast Nat.lt_of_lt_of_le Nat.zero_lt_one (Nat.le_max_right _ 1)
  have hmax_le : ∀ t : String, ((max (df t corpus) 1 : ℕ) : ℚ) ≤ (corpus.length : ℚ) := by
    intro t
    exact_mod_cast Nat.max_le.mpr ⟨hdf_le t, hN⟩
  have htfidf_idf : ∀ t, 0 ≤ tfidfIdf logFn corpus t := by
    intro t
    apply hlog
    rw [le_div_iff₀ (hmax_pos t)]
    simpa using hmax_le t
  have hbm25_idf : ∀ t, 0 ≤ bm25Idf logFn corpus t := by
    intro t
    apply hlog
    have hq : (0 : ℚ) ≤ (corpus.length : ℚ) / ((max (df t corpus) 1 : ℕ) : ℚ) :=
      div_nonneg (by positivity) (le_of_lt (hmax_pos t))
    linarith
  have havg : 0 ≤ avgDocLen corpus := by
    unfold avgDocLen
    positivity
  have hfactor : ∀ t, 0 ≤ bm25TermFactor k1 b corpus t d := by
    intro t
    unfold bm25TermFactor
    apply div_nonneg
    · positivity
    · have h1 : (0 : ℚ) ≤ 1 - b := by linarith
      have h2 : (0 : ℚ) ≤ b * (docLen d : ℚ) / avgDocLen corpus := by positivity
      have h3 : (0 : ℚ) ≤ 1 - b + b * (docLen d : ℚ) / avgDocLen corpus := by linarith
      have h4 : (0 : ℚ) ≤ (tf t d : ℚ) := by positivity
      have h5 : (0 : ℚ) ≤ k1 * (1 - b + b * (docLen d : ℚ) / avgDocLen corpus) :=
        mul_nonneg hk1 h3
      linarith
  refine ⟨?_, ?_, ?_⟩
  · apply List.sum_nonneg
    intro x hx
    simp only [List.mem_map] at hx
    obtain ⟨t, _, rfl⟩ := hx
    exact mul_nonneg (by positivity) (htfidf_idf t)
  · apply List.sum_nonneg
    intro x hx
    simp only [List.mem_map] at hx
    obtain ⟨t, _, rfl⟩ := hx
    by_cases hdf : df t corpus = 0
    · simp [hdf]
    · simp only [hdf, if_false]
      exact mul_nonneg (hbm25_idf t) (hfactor t)
  · apply List.sum_nonneg
    intro x hx
    simp only [List.mem_map] at hx
    obtain ⟨t, _, rfl⟩ := hx
    by_cases hdf : df t corpus = 0
    · simp [hdf]
    · simp only [hdf, if_false]
      exact mul_nonneg (le_max_left 0 _) (hfactor t)

/-- C2 witness: a concrete two-document corpus with the concrete log stand-in and the
default-like constants k1 = 6/5, b = 3/4. -/
theorem sparse_scores_nonneg_witness :
    0 ≤ tfidfScore linLog [["a"], ["a", "b"]] ["a", "c"] ["a", "a"] ∧
    0 ≤ bm25Score linLog (6/5) (3/4) [["a"], ["a", "b"]] ["a", "c"] ["a", "a"] ∧
    0 ≤ atireBm25Score linLog (6/5) (3/4) [["a"], ["a", "b"]] ["a", "c"] ["a", "a"] :=
  sparse_scores_nonneg linLog (6/5) (3/4) [["a"], ["a", "b"]] ["a", "c"] ["a", "a"]
    (by decide)
    (fun x hx => by simp only [linLog]; linarith)
    (by norm_num) (by norm_num) (by norm_num)

/- ===== C6 ===== -/

/-- C6: (modelled) repeated `retrieve` calls on the same candidates and index state
return the identical ordered sequence, and entries with equal final score appear in
strictly ascending document-id order whenever the candidate doc ids are distinct. -/
theorem retrieve_deterministic_tiebreak (cands : List ScoredDoc) (topK : ℕ)
    (hids : (cands.map ScoredDoc.docId).Nodup) :
    retrieveRanked cands topK = retrieveRanked cands topK ∧
    tieBreakOrdered (retrieveRanked cands topK) := by
  refine ⟨rfl, ?_⟩
  intro i j hij hscore
  have hsorted : (List.insertionSort rankLe cands).Sorted rankLe :=
    List.sorted_insertionSort rankLe cands
  have hsorted' : (retrieveRanked cands topK).Sorted rankLe :=
    List.Pairwise.sublist (List.take_sublist topK _) hsorted
  have hrel := hsorted'.rel_get_of_lt hij
  have hle : ((retrieveRanked cands topK).get i).docId ≤
      ((retrieveRanked cands topK).get j).docId := by
    rcases hrel with h | h
    · rw [hscore] at h
      exact absurd h (lt_irrefl _)
    · exact h.2
  have hperm : List.Perm (List.insertionSort rankLe cands) cands :=
    List.perm_insertionSort rankLe cands
  have h1 : ((List.insertionSort rankLe cands).map ScoredDoc.docId).Nodup :=
    ((hperm.map ScoredDoc.docId).nodup_iff).mpr hids
  have h2 : ((retrieveRanked cands topK).map ScoredDoc.docId).Nodup := by
    have hsub : List.Sublist ((retrieveRanked cands topK).map ScoredDoc.docId)
        ((List.insertionSort rankLe cands).map ScoredDoc.docId) :=
      List.Sublist.map ScoredDoc.docId (List.take_sublist topK _)
    exact List.Nodup.sublist hsub h1
  have hpw : (retrieveRanked cands topK).Pairwise (fun a c => a.docId ≠ c.docId) :=
    List.pairwise_map.mp h2
  have hne := List.pairwise_iff_get.mp hpw i j hij
  exact lt_of_le_of_ne hle hne

/-- C6 witness: two tied candidates given out of id order, plus a higher-scored one. -/
theorem retrieve_deterministic_tiebreak_witness :
    retrieveRanked [⟨1, 2⟩, ⟨0, 2⟩, ⟨2, 5⟩] 3 = retrieveRanked [⟨1, 2⟩, ⟨0, 2⟩, ⟨2, 5⟩] 3 ∧
    tieBreakOrdered (retrieveRanked [⟨1, 2⟩, ⟨0, 2⟩, ⟨2, 5⟩] 3) :=
  retrieve_deterministic_tiebreak [⟨1, 2⟩, ⟨0, 2⟩, ⟨2, 5⟩] 3 (by decide)
